import Mathlib

/-!
# PrometheusHTTPServer: instrumentation middleware

A shallow embedding of `advanced-programs/PrometheusHTTPServer/main.go`:
the `responseWriter` observer, the three metric vectors, the closure built by
`prometheusMiddleware`, and the start-up sequence (`promauto`, `init`, `main`).

Modelling conventions
* Go `int` status codes are `Int`; body bytes are lists of byte values.
* An `http.ResponseWriter` implementation is a state type `σ` together with the
  three operations of the interface, acting on that state (`Writer σ`).
* A handler is the sequence of operations it performs on the response writer
  it is given, followed by the way it terminates (normal return or panic).
* A metric vector maps a label value to the state of its child; `none` means
  the child has not been created yet (`WithLabelValues` creates it lazily).
* Panics are explicit: a run of the middleware yields the final state and an
  `Exit` telling whether the call returned or is still panicking.
-/

namespace PrometheusHTTPServer

/-! ## Response writers and handlers -/

/-- Body bytes handed to `Write`. -/
abbrev Bytes := List Nat

/-- `http.StatusOK`. -/
def StatusOK : Int := 200

/-- An implementation of the `http.ResponseWriter` interface over a state `σ`.
`HeaderSet` stands for a mutation `w.Header().Set(key, value)` of the header
map the writer hands out. -/
structure Writer (σ : Type) where
  HeaderSet : σ → String → String → σ
  Write : σ → Bytes → σ
  WriteHeader : σ → Int → σ

/-- The struct `responseWriter`: the embedded `http.ResponseWriter` and the
recorded `statusCode`. -/
structure responseWriter (σ : Type) where
  ResponseWriter : σ
  statusCode : Int

/-- `NewResponseWriter(w)`: `&responseWriter{w, http.StatusOK}`. -/
def NewResponseWriter {σ : Type} (w : σ) : responseWriter σ :=
  { ResponseWriter := w, statusCode := StatusOK }

/-- `(*responseWriter).WriteHeader`: store the code, then forward the call to
the embedded writer. -/
def responseWriter.WriteHeader {σ : Type} (W : Writer σ) (rw : responseWriter σ)
    (code : Int) : responseWriter σ :=
  { ResponseWriter := W.WriteHeader rw.ResponseWriter code, statusCode := code }

/-- `Write` is not declared on `responseWriter`: the method of the embedded
writer is promoted. -/
def responseWriter.Write {σ : Type} (W : Writer σ) (rw : responseWriter σ)
    (b : Bytes) : responseWriter σ :=
  { rw with ResponseWriter := W.Write rw.ResponseWriter b }

/-- `Header` is not declared on `responseWriter`: the method of the embedded
writer is promoted, so header mutations reach the embedded writer. -/
def responseWriter.HeaderSet {σ : Type} (W : Writer σ) (rw : responseWriter σ)
    (key value : String) : responseWriter σ :=
  { rw with ResponseWriter := W.HeaderSet rw.ResponseWriter key value }

/-- The `http.ResponseWriter` implementation that `*responseWriter` provides
on top of the embedded writer `W`. -/
def observer {σ : Type} (W : Writer σ) : Writer (responseWriter σ) where
  HeaderSet := responseWriter.HeaderSet W
  Write := responseWriter.Write W
  WriteHeader := responseWriter.WriteHeader W

/-- One operation a handler performs on the response writer it receives. -/
inductive HandlerOp where
  | setHeader (key value : String)
  | writeHeader (code : Int)
  | write (body : Bytes)
  deriving DecidableEq, Repr

/-- Values a panic can carry: a Go runtime error or a value passed to
`panic` by user code. -/
inductive PanicValue where
  | runtimeError (msg : String)
  | value (v : String)
  deriving DecidableEq, Repr

/-- How a call terminates. -/
inductive Exit where
  | returns
  | panics (v : PanicValue)
  deriving DecidableEq, Repr

/-- A handler: the operations it performs on its response writer, in order,
and how `ServeHTTP` terminates after them. -/
structure Handler where
  ops : List HandlerOp
  exit : Exit
  deriving DecidableEq, Repr

/-- Perform one handler operation on a writer. -/
def applyOp {σ : Type} (W : Writer σ) (s : σ) : HandlerOp → σ
  | .setHeader k v => W.HeaderSet s k v
  | .writeHeader code => W.WriteHeader s code
  | .write b => W.Write s b

/-- Perform a sequence of handler operations on a writer, left to right. -/
def runOps {σ : Type} (W : Writer σ) (s : σ) (ops : List HandlerOp) : σ :=
  ops.foldl (applyOp W) s

/-- `next.ServeHTTP(w, r)`: the writer state the handler leaves behind and the
way the call terminates. -/
def Handler.ServeHTTP {σ : Type} (next : Handler) (W : Writer σ) (w : σ) : σ × Exit :=
  (runOps W w next.ops, next.exit)

/-- A writer that records every call it receives, oldest first. -/
def traceWriter : Writer (List HandlerOp) where
  HeaderSet := fun t k v => t ++ [.setHeader k v]
  Write := fun t b => t ++ [.write b]
  WriteHeader := fun t code => t ++ [.writeHeader code]

/-- State of the server side `http.ResponseWriter` of `net/http`: the status
line is fixed by the first `WriteHeader`, or implicitly as 200 by the first
`Write`. -/
structure response where
  wroteHeader : Bool
  status : Int
  header : List (String × String)
  sentHeader : List (String × String)
  body : Bytes
  deriving DecidableEq, Repr

/-- A fresh `net/http` response: nothing sent yet. -/
def response.fresh : response :=
  { wroteHeader := false, status := StatusOK, header := [], sentHeader := [], body := [] }

/-- `WriteHeader` of `net/http`: a second call is superfluous and ignored. -/
def response.WriteHeader (r : response) (code : Int) : response :=
  if r.wroteHeader then r
  else { r with wroteHeader := true, status := code, sentHeader := r.header }

/-- `Write` of `net/http`: sends the header with status 200 first when no
`WriteHeader` call came before. -/
def response.Write (r : response) (b : Bytes) : response :=
  let r1 := if r.wroteHeader then r else r.WriteHeader StatusOK
  { r1 with body := r1.body ++ b }

/-- `Header().Set` of `net/http`: replaces the entries of the key. -/
def response.HeaderSet (r : response) (key value : String) : response :=
  { r with header := (r.header.filter (fun kv => kv.1 ≠ key)) ++ [(key, value)] }

/-- The `net/http` response as a `Writer`. -/
def httpWriter : Writer response where
  HeaderSet := response.HeaderSet
  Write := response.Write
  WriteHeader := response.WriteHeader

/-- Status of the response the client receives once the handler has returned:
the code of the first `WriteHeader` call when no body write precedes it, and
200 otherwise. -/
def clientStatus : List HandlerOp → Int
  | [] => StatusOK
  | .setHeader _ _ :: ops => clientStatus ops
  | .writeHeader code :: _ => code
  | .write _ :: _ => StatusOK

/-- The code passed to the first `WriteHeader` call of a sequence, if any. -/
def firstWriteHeader : List HandlerOp → Option Int
  | [] => none
  | .writeHeader code :: _ => some code
  | _ :: ops => firstWriteHeader ops

/-- The code passed to the last `WriteHeader` call of a sequence, if any. -/
def lastWriteHeader : List HandlerOp → Option Int
  | [] => none
  | .writeHeader code :: ops => some ((lastWriteHeader ops).getD code)
  | _ :: ops => lastWriteHeader ops

/-- Whether an operation is a `WriteHeader` call. -/
def HandlerOp.isWriteHeader : HandlerOp → Bool
  | .writeHeader _ => true
  | _ => false

/-! ## Metrics -/

/-- `strconv.Itoa`: decimal text of an `int`. -/
def Itoa (i : Int) : String :=
  if i < 0 then "-" ++ Nat.repr i.natAbs else Nat.repr i.toNat

/-- A `prometheus.CounterVec` with one label: the value of each child, `none`
for a label value whose child does not exist yet. -/
abbrev CounterVec := String → Option Nat

/-- A `prometheus.HistogramVec` with one label: the observations folded into
each child (elapsed nanoseconds, oldest first). -/
abbrev HistogramVec := String → Option (List Nat)

/-- `WithLabelValues(lv)` on a vector: the child is created empty on first
use and reused afterwards. -/
def WithLabelValues {α : Type} (zero : α) (vec : String → Option α) (lv : String) :
    String → Option α :=
  fun k => if k = lv then some ((vec k).getD zero) else vec k

/-- `Inc` on the child of `lv`. -/
def Inc (vec : CounterVec) (lv : String) : CounterVec :=
  fun k => if k = lv then (vec k).map (fun n => n + 1) else vec k

/-- `Observe` on the child of `lv`. -/
def Observe (vec : HistogramVec) (lv : String) (d : Nat) : HistogramVec :=
  fun k => if k = lv then (vec k).map (fun obs => obs ++ [d]) else vec k

/-- Current value of a counter child (0 when it does not exist). -/
def counterValue (vec : CounterVec) (lv : String) : Nat := (vec lv).getD 0

/-- Observations of a histogram child (none when it does not exist). -/
def observations (vec : HistogramVec) (lv : String) : List Nat := (vec lv).getD []

/-- The three package level metric vectors and the output of `log.Printf`
(the status codes logged, oldest first). -/
structure Metrics where
  getCallCounter : CounterVec
  responseStatus : CounterVec
  httpDuration : HistogramVec
  logged : List Int

/-- No child created, nothing logged. -/
def Metrics.empty : Metrics :=
  { getCallCounter := fun _ => none, responseStatus := fun _ => none,
    httpDuration := fun _ => none, logged := [] }

/-! ## Routes -/

/-- The fields of a `mux.Route` that `GetPathTemplate` reads: the build error
of the route and the template of its path matcher. -/
structure Route where
  err : Option String
  pathTemplate : Option String
  deriving DecidableEq, Repr

/-- `(*mux.Route).GetPathTemplate` applied to the result of `mux.CurrentRoute`
(`none` is the nil route). The method reads `r.err` first, so a nil receiver
panics with a nil pointer dereference; a route with an error, or without a
path matcher, yields the empty string and an error. -/
def GetPathTemplate : Option Route → Except PanicValue (String × Option String)
  | none => .error (.runtimeError "invalid memory address or nil pointer dereference")
  | some r =>
    match r.err with
    | some e => .ok ("", some e)
    | none =>
      match r.pathTemplate with
      | none => .ok ("", some "mux: route does not have a path")
      | some t => .ok (t, none)

/-- What the middleware reads from a request and its environment: the route
`mux.CurrentRoute(r)` returns, and the time that elapses between
`prometheus.NewTimer` and `timer.ObserveDuration`. -/
structure Request where
  route : Option Route
  elapsed : Nat
  deriving DecidableEq, Repr

/-! ## The middleware -/

/-- The deferred closure of the middleware: `getCallCounter.WithLabelValues(path).Inc()`. -/
def deferred (path : String) (m : Metrics) : Metrics :=
  { m with getCallCounter := Inc (WithLabelValues 0 m.getCallCounter path) path }

/-- The handler returned by `prometheusMiddleware(next)`, run on a request
with underlying writer state `w` and metric state `m`. Yields the underlying
writer state, the metric state and the way the call terminates. -/
def prometheusMiddleware {σ : Type} (W : Writer σ) (next : Handler) (req : Request)
    (w : σ) (m : Metrics) : σ × Metrics × Exit :=
  match GetPathTemplate req.route with
  | .error v => (w, m, .panics v)
  | .ok (path, _) =>
    let m1 := { m with httpDuration := WithLabelValues [] m.httpDuration path }
    let rw := NewResponseWriter w
    match next.ServeHTTP (observer W) rw with
    | (rw1, .panics v) => (rw1.ResponseWriter, deferred path m1, .panics v)
    | (rw1, .returns) =>
      let statusCode := rw1.statusCode
      let m2 := { m1 with
        responseStatus := Inc (WithLabelValues 0 m1.responseStatus (Itoa statusCode)) (Itoa statusCode) }
      let m3 := { m2 with logged := m2.logged ++ [statusCode] }
      let m4 := { m3 with httpDuration := Observe m3.httpDuration path req.elapsed }
      (rw1.ResponseWriter, deferred path m4, .returns)

/-! ## Start-up -/

/-- What the registry keeps of a registered collector: the fully qualified
metric name, the help string and the variable label names. -/
structure Desc where
  Name : String
  Help : String
  labels : List String
  deriving DecidableEq, Repr

/-- The errors `Register` returns. -/
inductive RegisterError where
  | alreadyRegistered
  | inconsistentDescriptor
  deriving DecidableEq, Repr

/-- The default registry: the descriptors registered so far, oldest first. -/
abbrev Registry := List Desc

/-- `prometheus.Register`: fails when a descriptor with the same fully
qualified name is registered already, with `AlreadyRegisteredError` for an
equal descriptor and with a plain error for one with another help string or
other label names. The registry is unchanged when it fails. -/
def Register (reg : Registry) (d : Desc) : Registry × Option RegisterError :=
  match reg.find? (fun e => e.Name = d.Name) with
  | some e => (reg, some (if e = d then .alreadyRegistered else .inconsistentDescriptor))
  | none => (reg ++ [d], none)

/-- Descriptor of `getCallCounter`. -/
def getCallCounterDesc : Desc :=
  { Name := "http_requests_total", Help := "Number of get requests.", labels := ["path"] }

/-- Descriptor of `responseStatus`. -/
def responseStatusDesc : Desc :=
  { Name := "response_status", Help := "Status of HTTP response", labels := ["status"] }

/-- Descriptor of `httpDuration`. -/
def httpDurationDesc : Desc :=
  { Name := "http_response_time_seconds", Help := "Duration of HTTP requests.", labels := ["path"] }

/-- Initialiser of the package variable `httpDuration`:
`promauto.NewHistogramVec` registers the new vector with `MustRegister`,
which panics when `Register` returns an error. -/
def promautoNewHistogramVec (reg : Registry) (d : Desc) : Except RegisterError Registry :=
  match Register reg d with
  | (_, some e) => .error e
  | (reg1, none) => .ok reg1

/-- The errors the three `prometheus.Register` calls of `init` return, in
order. `init` drops every one of them. -/
def initErrors (reg : Registry) : List (Option RegisterError) :=
  let r1 := Register reg getCallCounterDesc
  let r2 := Register r1.1 responseStatusDesc
  let r3 := Register r2.1 httpDurationDesc
  [r1.2, r2.2, r3.2]

/-- The function `init`: three `prometheus.Register` calls whose results are
not looked at. -/
def init (reg : Registry) : Registry :=
  let r1 := Register reg getCallCounterDesc
  let r2 := Register r1.1 responseStatusDesc
  let r3 := Register r2.1 httpDurationDesc
  r3.1

/-- How far start-up gets. -/
inductive Startup where
  | panicked (e : RegisterError)
  | listenAndServe (reg : Registry)
  deriving DecidableEq, Repr

/-- The function `main`: builds the router and calls `http.ListenAndServe`. -/
def main (reg : Registry) : Startup := .listenAndServe reg

/-- Process start from the registry state `reg0`: package variable
initialisation, then `init`, then `main`. -/
def start (reg0 : Registry) : Startup :=
  match promautoNewHistogramVec reg0 httpDurationDesc with
  | .error e => .panicked e
  | .ok reg1 => main (init reg1)

/-! ## Concrete inputs -/

/-- The bytes of the text "not found". -/
def notFound : Bytes := [110, 111, 116, 32, 102, 111, 117, 110, 100]

/-- A route with path template "/x". -/
def routeX : Route := { err := none, pathTemplate := some "/x" }

/-- A route built without a path matcher. -/
def routeNoPath : Route := { err := none, pathTemplate := none }

/-- A handler that sets status 404 and writes "not found". -/
def handler404 : Handler := { ops := [.writeHeader 404, .write notFound], exit := .returns }

/-- A handler that calls `WriteHeader` twice. -/
def handlerTwice : Handler := { ops := [.writeHeader 404, .writeHeader 500], exit := .returns }

/-- A handler that writes body bytes and sets a status afterwards. -/
def handlerLate : Handler := { ops := [.write notFound, .writeHeader 500], exit := .returns }

/-- A handler that panics before it touches the response writer. -/
def handlerPanic : Handler := { ops := [], exit := .panics (.value "boom") }

/-- A handler that only writes body bytes. -/
def handlerBody : Handler := { ops := [.setHeader "Content-Type" "text/plain", .write notFound], exit := .returns }

/-! ## Lemmas on the observer -/

theorem runOps_nil {σ : Type} (W : Writer σ) (s : σ) : runOps W s [] = s := rfl

theorem runOps_cons {σ : Type} (W : Writer σ) (s : σ) (op : HandlerOp) (ops : List HandlerOp) :
    runOps W s (op :: ops) = runOps W (applyOp W s op) ops := rfl

/-- The embedded writer of the observer sees what a bare writer would see. -/
theorem runOps_observer_ResponseWriter {σ : Type} (W : Writer σ) (ops : List HandlerOp)
    (rw : responseWriter σ) :
    (runOps (observer W) rw ops).ResponseWriter = runOps W rw.ResponseWriter ops := by
  induction ops generalizing rw with
  | nil => rfl
  | cons op ops ih =>
    rw [runOps_cons, runOps_cons, ih]
    cases op <;> rfl

/-- The observer holds the code of the last `WriteHeader` call, and its
previous status when there is none. -/
theorem runOps_observer_statusCode {σ : Type} (W : Writer σ) (ops : List HandlerOp)
    (rw : responseWriter σ) :
    (runOps (observer W) rw ops).statusCode = (lastWriteHeader ops).getD rw.statusCode := by
  induction ops generalizing rw with
  | nil => rfl
  | cons op ops ih =>
    rw [runOps_cons, ih]
    cases op <;> simp [lastWriteHeader, applyOp, observer, responseWriter.WriteHeader,
      responseWriter.Write, responseWriter.HeaderSet]

theorem lastWriteHeader_none (ops : List HandlerOp)
    (h : ∀ op ∈ ops, op.isWriteHeader = false) : lastWriteHeader ops = none := by
  induction ops with
  | nil => rfl
  | cons op ops ih =>
    have hop := h op (List.mem_cons_self _ _)
    have hrest : ∀ o ∈ ops, o.isWriteHeader = false :=
      fun o ho => h o (List.mem_cons_of_mem _ ho)
    cases op with
    | writeHeader code => simp [HandlerOp.isWriteHeader] at hop
    | setHeader k v => simpa [lastWriteHeader] using ih hrest
    | write b => simpa [lastWriteHeader] using ih hrest

theorem runOps_traceWriter (ops : List HandlerOp) (t : List HandlerOp) :
    runOps traceWriter t ops = t ++ ops := by
  induction ops generalizing t with
  | nil => simp [runOps_nil]
  | cons op ops ih =>
    rw [runOps_cons, ih]
    cases op <;> simp [applyOp, traceWriter]

/-- Once the header is written, the status of a `net/http` response is fixed. -/
theorem runOps_httpWriter_wrote (ops : List HandlerOp) (r : response)
    (h : r.wroteHeader = true) :
    (runOps httpWriter r ops).status = r.status := by
  induction ops generalizing r with
  | nil => rfl
  | cons op ops ih =>
    rw [runOps_cons]
    cases op with
    | setHeader k v =>
      rw [ih _ (by simpa [applyOp, httpWriter, response.HeaderSet] using h)]
      rfl
    | writeHeader code =>
      have : applyOp httpWriter r (.writeHeader code) = r := by
        simp [applyOp, httpWriter, response.WriteHeader, h]
      rw [this, ih r h]
    | write b =>
      rw [ih _ (by simp [applyOp, httpWriter, response.Write, h])]
      simp [applyOp, httpWriter, response.Write, h]

/-- The status a `net/http` response ends with is the status the client
receives: the first `WriteHeader` code when no body write precedes it, and
200 otherwise. -/
theorem runOps_httpWriter_status (ops : List HandlerOp) (r : response)
    (h : r.wroteHeader = false) (hs : r.status = StatusOK) :
    (runOps httpWriter r ops).status = clientStatus ops := by
  induction ops generalizing r with
  | nil => simpa [runOps_nil, clientStatus] using hs
  | cons op ops ih =>
    rw [runOps_cons]
    cases op with
    | setHeader k v =>
      rw [ih _ (by simpa [applyOp, httpWriter, response.HeaderSet] using h)
        (by simpa [applyOp, httpWriter, response.HeaderSet] using hs)]
      rfl
    | writeHeader code =>
      rw [runOps_httpWriter_wrote _ _ (by simp [applyOp, httpWriter, response.WriteHeader, h])]
      simp [applyOp, httpWriter, response.WriteHeader, h, clientStatus]
    | write b =>
      rw [runOps_httpWriter_wrote _ _ (by simp [applyOp, httpWriter, response.Write,
        response.WriteHeader, h])]
      simp [applyOp, httpWriter, response.Write, response.WriteHeader, h, clientStatus]

/-! ## Lemmas on the metric vectors -/

theorem counterValue_Inc_same (vec : CounterVec) (lv : String) :
    counterValue (Inc (WithLabelValues 0 vec lv) lv) lv = counterValue vec lv + 1 := by
  simp [counterValue, Inc, WithLabelValues]

theorem Inc_other (vec : CounterVec) (lv k : String) (h : k ≠ lv) :
    Inc (WithLabelValues 0 vec lv) lv k = vec k := by
  simp [Inc, WithLabelValues, h]

theorem observations_Observe_same (vec : HistogramVec) (lv : String) (d : Nat) :
    observations (Observe (WithLabelValues [] vec lv) lv d) lv = observations vec lv ++ [d] := by
  simp [observations, Observe, WithLabelValues]

theorem Observe_other (vec : HistogramVec) (lv k : String) (d : Nat) (h : k ≠ lv) :
    Observe (WithLabelValues [] vec lv) lv d k = vec k := by
  simp [Observe, WithLabelValues, h]

theorem observations_WithLabelValues (vec : HistogramVec) (lv k : String) :
    observations (WithLabelValues [] vec lv) k = observations vec k := by
  by_cases h : k = lv <;> simp [observations, WithLabelValues, h]

/-! ## The middleware, case by case -/

/-- The run of the middleware when the route has a label and the handler
returns. -/
theorem prometheusMiddleware_returns {σ : Type} (W : Writer σ) (next : Handler)
    (req : Request) (w : σ) (m : Metrics) (path : String) (e : Option String)
    (hroute : GetPathTemplate req.route = .ok (path, e)) (hret : next.exit = .returns) :
    prometheusMiddleware W next req w m =
      (runOps W w next.ops,
        { getCallCounter := Inc (WithLabelValues 0 m.getCallCounter path) path
          responseStatus :=
            Inc (WithLabelValues 0 m.responseStatus
              (Itoa ((lastWriteHeader next.ops).getD StatusOK)))
              (Itoa ((lastWriteHeader next.ops).getD StatusOK))
          httpDuration := Observe (WithLabelValues [] m.httpDuration path) path req.elapsed
          logged := m.logged ++ [(lastWriteHeader next.ops).getD StatusOK] },
        .returns) := by
  simp only [prometheusMiddleware, hroute, Handler.ServeHTTP, hret, deferred,
    runOps_observer_ResponseWriter, runOps_observer_statusCode, NewResponseWriter]

/-- The run of the middleware when the route has a label and the handler
panics. -/
theorem prometheusMiddleware_panics {σ : Type} (W : Writer σ) (next : Handler)
    (req : Request) (w : σ) (m : Metrics) (path : String) (e : Option String) (v : PanicValue)
    (hroute : GetPathTemplate req.route = .ok (path, e)) (hpanic : next.exit = .panics v) :
    prometheusMiddleware W next req w m =
      (runOps W w next.ops,
        { getCallCounter := Inc (WithLabelValues 0 m.getCallCounter path) path
          responseStatus := m.responseStatus
          httpDuration := WithLabelValues [] m.httpDuration path
          logged := m.logged },
        .panics v) := by
  simp only [prometheusMiddleware, hroute, Handler.ServeHTTP, hpanic, deferred,
    runOps_observer_ResponseWriter, NewResponseWriter]

theorem GetPathTemplate_some (rt : Route) :
    ∃ path e, GetPathTemplate (some rt) = .ok (path, e) := by
  rcases rt with ⟨err, tpl⟩
  cases err with
  | some e => exact ⟨"", some e, rfl⟩
  | none =>
    cases tpl with
    | none => exact ⟨"", _, rfl⟩
    | some t => exact ⟨t, none, rfl⟩

theorem GetPathTemplate_unresolved (rt : Route) (h : rt.err ≠ none ∨ rt.pathTemplate = none) :
    ∃ e, GetPathTemplate (some rt) = .ok ("", some e) := by
  rcases rt with ⟨err, tpl⟩
  cases err with
  | some e => exact ⟨e, rfl⟩
  | none =>
    cases tpl with
    | none => exact ⟨_, rfl⟩
    | some t => simp at h

/-! ## The claims -/

/-- C1 fails on the code. A handler that calls `WriteHeader(404)` and then
`WriteHeader(500)` leaves the observer with status 500, the code of the last
call, while the first call passed 404 and the `net/http` writer the calls are
forwarded to keeps 404. -/
theorem C1_observer_keeps_last_code :
    firstWriteHeader handlerTwice.ops = some 404 ∧
    (handlerTwice.ServeHTTP (observer httpWriter) (NewResponseWriter response.fresh)).1.statusCode
      = 500 ∧
    (handlerTwice.ServeHTTP (observer httpWriter)
      (NewResponseWriter response.fresh)).1.ResponseWriter.status = 404 := by
  decide

/-- C2. `NewResponseWriter(w)` holds status 200; after any sequence of handler
operations without a `WriteHeader` call the observer still holds 200; and the
middleware, when such a handler returns, increments `response_status` under
the label "200" and under no other label. -/
theorem C2_default_status_200 {σ : Type} (W : Writer σ) (w : σ) (ops : List HandlerOp)
    (rt : Route) (elapsed : Nat) (m : Metrics)
    (hno : ∀ op ∈ ops, op.isWriteHeader = false) :
    (NewResponseWriter w).statusCode = 200 ∧
    (runOps (observer W) (NewResponseWriter w) ops).statusCode = 200 ∧
    counterValue
        (prometheusMiddleware W ⟨ops, .returns⟩ ⟨some rt, elapsed⟩ w m).2.1.responseStatus "200"
      = counterValue m.responseStatus "200" + 1 ∧
    ∀ k, k ≠ "200" →
      (prometheusMiddleware W ⟨ops, .returns⟩ ⟨some rt, elapsed⟩ w m).2.1.responseStatus k
        = m.responseStatus k := by
  obtain ⟨path, e, hroute⟩ := GetPathTemplate_some rt
  have hrun := prometheusMiddleware_returns W ⟨ops, .returns⟩ ⟨some rt, elapsed⟩ w m path e
    hroute rfl
  have hlast : (lastWriteHeader ops).getD StatusOK = 200 := by
    rw [lastWriteHeader_none ops hno]; rfl
  have hlabel : Itoa 200 = "200" := by decide
  refine ⟨rfl, ?_, ?_, ?_⟩
  · rw [runOps_observer_statusCode, lastWriteHeader_none ops hno]; rfl
  · rw [hrun]
    simp only [hlast, hlabel]
    exact counterValue_Inc_same _ _
  · intro k hk
    rw [hrun]
    simp only [hlast, hlabel]
    exact Inc_other _ _ _ hk

/-- Witness of C2: a handler that sets a header and writes "not found", on the
route "/x" with no metric recorded before. -/
theorem C2_default_status_200_witness :
    (∀ op ∈ handlerBody.ops, op.isWriteHeader = false) ∧
    (runOps (observer httpWriter) (NewResponseWriter response.fresh) handlerBody.ops).statusCode
      = 200 ∧
    counterValue
        (prometheusMiddleware httpWriter ⟨handlerBody.ops, .returns⟩ ⟨some routeX, 3⟩
          response.fresh Metrics.empty).2.1.responseStatus "200"
      = counterValue Metrics.empty.responseStatus "200" + 1 :=
  have h := C2_default_status_200 httpWriter response.fresh handlerBody.ops routeX 3
    Metrics.empty (by decide)
  ⟨by decide, h.2.1, h.2.2.1⟩

/-- C3. When the route of the request resolves to the path template `p` and
the wrapped handler returns leaving the observer with status `c`, the
middleware returns and changes the metrics by exactly this:
`http_requests_total` of `p` goes up by one, `response_status` of the decimal
text of `c` goes up by one, one observation (the elapsed time) is appended to
`http_response_time_seconds` of `p`, and the child of every other label value
of each of the three vectors is left as it was. -/
theorem C3_one_measurement_per_request {σ : Type} (W : Writer σ) (next : Handler)
    (req : Request) (w : σ) (m : Metrics) (p : String) (c : Int)
    (hroute : GetPathTemplate req.route = .ok (p, none))
    (hret : next.exit = .returns)
    (hstatus : (next.ServeHTTP (observer W) (NewResponseWriter w)).1.statusCode = c) :
    (prometheusMiddleware W next req w m).2.2 = .returns ∧
    counterValue (prometheusMiddleware W next req w m).2.1.getCallCounter p
      = counterValue m.getCallCounter p + 1 ∧
    counterValue (prometheusMiddleware W next req w m).2.1.responseStatus (Itoa c)
      = counterValue m.responseStatus (Itoa c) + 1 ∧
    observations (prometheusMiddleware W next req w m).2.1.httpDuration p
      = observations m.httpDuration p ++ [req.elapsed] ∧
    (∀ k, k ≠ p →
      (prometheusMiddleware W next req w m).2.1.getCallCounter k = m.getCallCounter k) ∧
    (∀ k, k ≠ Itoa c →
      (prometheusMiddleware W next req w m).2.1.responseStatus k = m.responseStatus k) ∧
    (∀ k, k ≠ p →
      (prometheusMiddleware W next req w m).2.1.httpDuration k = m.httpDuration k) := by
  have hc : (lastWriteHeader next.ops).getD StatusOK = c := by
    rw [← hstatus]
    simp only [Handler.ServeHTTP, runOps_observer_statusCode, NewResponseWriter]
  rw [prometheusMiddleware_returns W next req w m p none hroute hret, hc]
  exact ⟨rfl, counterValue_Inc_same _ _, counterValue_Inc_same _ _,
    observations_Observe_same _ _ _, fun k hk => Inc_other _ _ _ hk,
    fun k hk => Inc_other _ _ _ hk, fun k hk => Observe_other _ _ _ _ hk⟩

/-- Witness of C3, the scenario of the specification: on the route "/x" a
handler sets status 404 and writes "not found"; `response_status` of "404" and
`http_requests_total` of "/x" both go from 0 to 1, and the client receives
status 404 and the body unchanged. -/
theorem C3_one_measurement_per_request_witness :
    counterValue (prometheusMiddleware httpWriter handler404 ⟨some routeX, 5⟩ response.fresh
        Metrics.empty).2.1.responseStatus "404" = 1 ∧
    counterValue (prometheusMiddleware httpWriter handler404 ⟨some routeX, 5⟩ response.fresh
        Metrics.empty).2.1.getCallCounter "/x" = 1 ∧
    observations (prometheusMiddleware httpWriter handler404 ⟨some routeX, 5⟩ response.fresh
        Metrics.empty).2.1.httpDuration "/x" = [5] ∧
    (prometheusMiddleware httpWriter handler404 ⟨some routeX, 5⟩ response.fresh
        Metrics.empty).1.status = 404 ∧
    (prometheusMiddleware httpWriter handler404 ⟨some routeX, 5⟩ response.fresh
        Metrics.empty).1.body = notFound :=
  have h := C3_one_measurement_per_request httpWriter handler404 ⟨some routeX, 5⟩
    response.fresh Metrics.empty "/x" 404 rfl rfl (by decide)
  ⟨h.2.2.1, h.2.1, h.2.2.2.1, by decide, by decide⟩

/-- C4 fails on the code. On the route "/x" a handler panics without setting
a status. Only the deferred closure runs: `http_requests_total` of "/x" goes to
1, but `response_status` gets no increment (no child of "200", or of any other
label, is created) and `http_response_time_seconds` of "/x" gets no
observation. -/
theorem C4_panic_records_call_count_only :
    (prometheusMiddleware httpWriter handlerPanic ⟨some routeX, 5⟩ response.fresh
        Metrics.empty).2.2 = .panics (.value "boom") ∧
    counterValue (prometheusMiddleware httpWriter handlerPanic ⟨some routeX, 5⟩ response.fresh
        Metrics.empty).2.1.getCallCounter "/x" = 1 ∧
    counterValue (prometheusMiddleware httpWriter handlerPanic ⟨some routeX, 5⟩ response.fresh
        Metrics.empty).2.1.responseStatus "200" = 0 ∧
    (∀ k, (prometheusMiddleware httpWriter handlerPanic ⟨some routeX, 5⟩ response.fresh
        Metrics.empty).2.1.responseStatus k = none) ∧
    observations (prometheusMiddleware httpWriter handlerPanic ⟨some routeX, 5⟩ response.fresh
        Metrics.empty).2.1.httpDuration "/x" = [] := by
  refine ⟨by decide, by decide, by decide, fun k => rfl, by decide⟩

/-- C5. When the wrapped handler runs (the route is not nil) and panics with
the value `v`, the handler built by the middleware terminates by panicking
with the same value `v`. -/
theorem C5_panic_propagates {σ : Type} (W : Writer σ) (next : Handler) (req : Request)
    (w : σ) (m : Metrics) (v : PanicValue)
    (hrun : req.route ≠ none) (hpanic : next.exit = .panics v) :
    (prometheusMiddleware W next req w m).2.2 = .panics v := by
  obtain ⟨route, elapsed⟩ := req
  cases route with
  | none => exact absurd rfl hrun
  | some rt =>
    obtain ⟨path, e, hroute⟩ := GetPathTemplate_some rt
    rw [prometheusMiddleware_panics W next ⟨some rt, elapsed⟩ w m path e v hroute hpanic]

/-- Witness of C5: the handler that panics with "boom" on the route "/x". -/
theorem C5_panic_propagates_witness :
    (⟨some routeX, 5⟩ : Request).route ≠ none ∧
    handlerPanic.exit = .panics (.value "boom") ∧
    (prometheusMiddleware httpWriter handlerPanic ⟨some routeX, 5⟩ response.fresh
        Metrics.empty).2.2 = .panics (.value "boom") :=
  ⟨by decide, rfl,
    C5_panic_propagates httpWriter handlerPanic ⟨some routeX, 5⟩ response.fresh Metrics.empty
      (.value "boom") (by decide) rfl⟩

/-- C6. For every underlying writer and every sequence of handler operations,
the underlying writer ends in the same state whether the handler runs against
`NewResponseWriter(w)` or against `w` itself; the calls a recording writer
receives through the observer are exactly the operations of the handler, as
they are without the observer; `WriteHeader(code)` on the observer forwards
the same `code`; and the same holds for the writer state the middleware leaves
behind. -/
theorem C6_observer_is_transparent {σ : Type} (W : Writer σ) (w : σ) (ops : List HandlerOp) :
    (runOps (observer W) (NewResponseWriter w) ops).ResponseWriter = runOps W w ops ∧
    (runOps (observer traceWriter) (NewResponseWriter []) ops).ResponseWriter = ops ∧
    runOps traceWriter [] ops = ops ∧
    (∀ (rw : responseWriter σ) (code : Int),
      ((observer W).WriteHeader rw code).ResponseWriter = W.WriteHeader rw.ResponseWriter code) ∧
    (∀ (rt : Route) (elapsed : Nat) (m : Metrics) (exit : Exit),
      (prometheusMiddleware W ⟨ops, exit⟩ ⟨some rt, elapsed⟩ w m).1 = runOps W w ops) := by
  refine ⟨runOps_observer_ResponseWriter W ops _, ?_, ?_, fun _ _ => rfl, ?_⟩
  · rw [runOps_observer_ResponseWriter]
    simpa [NewResponseWriter] using runOps_traceWriter ops []
  · simpa using runOps_traceWriter ops []
  · intro rt elapsed m exit
    obtain ⟨path, e, hroute⟩ := GetPathTemplate_some rt
    cases exit with
    | returns =>
      rw [prometheusMiddleware_returns W ⟨ops, .returns⟩ ⟨some rt, elapsed⟩ w m path e hroute rfl]
    | panics v =>
      rw [prometheusMiddleware_panics W ⟨ops, .panics v⟩ ⟨some rt, elapsed⟩ w m path e v
        hroute rfl]

/-- C7 fails as stated: when `mux.CurrentRoute` returns nil the middleware
panics with a nil pointer dereference, before the handler runs and before
anything is recorded. -/
theorem C7_nil_route_panics :
    (prometheusMiddleware httpWriter handler404 ⟨none, 5⟩ response.fresh Metrics.empty).2.2
      = .panics (.runtimeError "invalid memory address or nil pointer dereference") ∧
    (prometheusMiddleware httpWriter handler404 ⟨none, 5⟩ response.fresh Metrics.empty).1
      = response.fresh ∧
    ∀ k, (prometheusMiddleware httpWriter handler404 ⟨none, 5⟩ response.fresh
        Metrics.empty).2.1.getCallCounter k = none :=
  ⟨by decide, by decide, fun _ => rfl⟩

/-- C7 as amended. When the route is not nil but `GetPathTemplate` returns an
error (the route carries a build error or has no path template), the
middleware does not fail of its own: it terminates the way the handler does,
and the path label it uses is the empty string: `http_requests_total` of ""
goes up by one, a returning handler adds its one observation to
`http_response_time_seconds` of "", and no other child of the two vectors
changes. -/
theorem C7_unresolved_template_uses_empty_label {σ : Type} (W : Writer σ) (next : Handler)
    (rt : Route) (elapsed : Nat) (w : σ) (m : Metrics)
    (herr : rt.err ≠ none ∨ rt.pathTemplate = none) :
    (prometheusMiddleware W next ⟨some rt, elapsed⟩ w m).2.2 = next.exit ∧
    counterValue (prometheusMiddleware W next ⟨some rt, elapsed⟩ w m).2.1.getCallCounter ""
      = counterValue m.getCallCounter "" + 1 ∧
    (next.exit = .returns →
      observations (prometheusMiddleware W next ⟨some rt, elapsed⟩ w m).2.1.httpDuration ""
        = observations m.httpDuration "" ++ [elapsed]) ∧
    (∀ k, k ≠ "" →
      (prometheusMiddleware W next ⟨some rt, elapsed⟩ w m).2.1.getCallCounter k
        = m.getCallCounter k ∧
      (prometheusMiddleware W next ⟨some rt, elapsed⟩ w m).2.1.httpDuration k
        = m.httpDuration k) := by
  obtain ⟨e, hroute⟩ := GetPathTemplate_unresolved rt herr
  cases hexit : next.exit with
  | returns =>
    rw [prometheusMiddleware_returns W next ⟨some rt, elapsed⟩ w m "" (some e) hroute hexit]
    exact ⟨rfl, counterValue_Inc_same _ _, fun _ => observations_Observe_same _ _ _,
      fun k hk => ⟨Inc_other _ _ _ hk, Observe_other _ _ _ _ hk⟩⟩
  | panics v =>
    rw [prometheusMiddleware_panics W next ⟨some rt, elapsed⟩ w m "" (some e) v hroute hexit]
    refine ⟨rfl, counterValue_Inc_same _ _, fun h => (by cases h),
      fun k hk => ⟨Inc_other _ _ _ hk, ?_⟩⟩
    simp [WithLabelValues, hk]

/-- Witness of the amended C7: a route without a path template. -/
theorem C7_unresolved_template_uses_empty_label_witness :
    (routeNoPath.err ≠ none ∨ routeNoPath.pathTemplate = none) ∧
    (prometheusMiddleware httpWriter handler404 ⟨some routeNoPath, 5⟩ response.fresh
        Metrics.empty).2.2 = .returns ∧
    counterValue (prometheusMiddleware httpWriter handler404 ⟨some routeNoPath, 5⟩
        response.fresh Metrics.empty).2.1.getCallCounter "" = 1 :=
  have h := C7_unresolved_template_uses_empty_label httpWriter handler404 routeNoPath 5
    response.fresh Metrics.empty (Or.inr rfl)
  ⟨Or.inr rfl, h.1, h.2.1⟩

/-- C8 fails on the code. In a plain start the package initialiser has
registered `httpDuration` through `promauto`, so the third `Register` call of
`init` returns `AlreadyRegisteredError`; and when the registry already holds
another metric named `http_requests_total`, the first call returns an error.
`init` drops the error both times and `main` reaches `http.ListenAndServe`. -/
theorem C8_registration_errors_are_dropped :
    initErrors [httpDurationDesc] = [none, none, some .alreadyRegistered] ∧
    start [] = .listenAndServe [httpDurationDesc, getCallCounterDesc, responseStatusDesc] ∧
    initErrors [⟨"http_requests_total", "Requests by method.", ["method"]⟩, httpDurationDesc]
      = [some .inconsistentDescriptor, none, some .alreadyRegistered] ∧
    start [⟨"http_requests_total", "Requests by method.", ["method"]⟩]
      = .listenAndServe [⟨"http_requests_total", "Requests by method.", ["method"]⟩,
          httpDurationDesc, responseStatusDesc] := by
  decide

/-- C10 fails on the code. A handler that writes body bytes and then calls
`WriteHeader(500)` has sent status 200 to the client, and a handler that calls
`WriteHeader(404)` and then `WriteHeader(500)` has sent 404; in both cases the
middleware increments `response_status` under "500" and under no other
label. -/
theorem C10_recorded_status_differs_from_sent :
    clientStatus handlerLate.ops = 200 ∧
    (prometheusMiddleware httpWriter handlerLate ⟨some routeX, 5⟩ response.fresh
        Metrics.empty).1.status = 200 ∧
    (prometheusMiddleware httpWriter handlerLate ⟨some routeX, 5⟩ response.fresh
        Metrics.empty).2.1.responseStatus "500" = some 1 ∧
    (prometheusMiddleware httpWriter handlerLate ⟨some routeX, 5⟩ response.fresh
        Metrics.empty).2.1.responseStatus "200" = none ∧
    clientStatus handlerTwice.ops = 404 ∧
    (prometheusMiddleware httpWriter handlerTwice ⟨some routeX, 5⟩ response.fresh
        Metrics.empty).1.status = 404 ∧
    (prometheusMiddleware httpWriter handlerTwice ⟨some routeX, 5⟩ response.fresh
        Metrics.empty).2.1.responseStatus "500" = some 1 ∧
    (prometheusMiddleware httpWriter handlerTwice ⟨some routeX, 5⟩ response.fresh
        Metrics.empty).2.1.responseStatus "404" = none := by
  decide

end PrometheusHTTPServer
